import Mathlib

/-!
Verification of the Smart Task Analyzer service (src/main.py).

The service exposes one HTTP endpoint, `POST /analyze-task`, implemented by
the handler `analyze_task`.  The handler checks an environment credential,
issues one call to an external completion collaborator, parses the returned
text as JSON, applies field defaulting, validates the result against the
`TaskAnalysis` pydantic schema, checks any non-null `due_date` with
`datetime.fromisoformat`, and returns the validated record or a typed HTTP
error.

This file shallowly embeds that pipeline:
  * JSON values are the inductive `Json` (objects are Python dicts, embedded
    as association lists with unique keys maintained by `dictSet`).
  * `jsonLoads` embeds `json.loads` restricted to JSON without
    floating-point numbers: fractions, exponents, NaN and Infinity are
    outside the model, and `\u` escapes do not combine surrogate pairs.
  * `applyDefaults` embeds the dictionary-mutation defaulting of
    main.py lines 85-90.
  * `validateTaskAnalysis` embeds pydantic validation of `TaskAnalysis`
    (strict field types, `Literal` enumeration for `priority`, optional
    `due_date` with default `None`, extra keys ignored as pydantic does by
    default); the error payload is modelled as the list of violated fields.
  * `fromisoformatOk` embeds the accepting behaviour of
    `datetime.fromisoformat` (CPython 3.11+): extended or basic calendar
    date, optional time after any one-character separator, optional
    fractional seconds and UTC offset, with range and leap-year checks.
  * `analyze_task` embeds the handler itself; its second component counts
    outbound collaborator calls.  Uncaught Python exceptions (such as the
    `AttributeError` raised by `data.get` when the parsed JSON is not an
    object) are modelled by the `Outcome.crash` constructor.
Exception message texts that the Python runtime formats with quotation
marks are modelled without the quote characters; their prefixes follow the
source f-strings exactly.
-/

/-- JSON values as produced by `json.loads`.  Numbers are modelled as
integers (see the file header for the scope of the model). -/
inductive Json where
  | null : Json
  | bool : Bool → Json
  | num : Int → Json
  | str : String → Json
  | arr : List Json → Json
  | obj : List (String × Json) → Json

/-- `d.get(key)` on a Python dict: the value bound to `key`, if any. -/
def dictGet : List (String × Json) → String → Option Json
  | [], _ => none
  | (k, v) :: rest, key => if k = key then some v else dictGet rest key

/-- `d[key] = v` on a Python dict: overwrite the binding in place if the
key is present, otherwise append it. -/
def dictSet : List (String × Json) → String → Json → List (String × Json)
  | [], key, v => [(key, v)]
  | (k, w) :: rest, key, v =>
      if k = key then (k, v) :: rest else (k, w) :: dictSet rest key v

/-- Python `d.get(k) is None`: the key is absent or bound to `None`. -/
def isNoneOrNull : Option Json → Bool
  | none => true
  | some Json.null => true
  | _ => false

/-- Python `d.get(k) in (None, "")`: absent, bound to `None`, or bound to
the empty string.  (Python `in` compares with `==`, which no other JSON
value satisfies against `None` or `""`.) -/
def isNoneNullOrEmpty : Option Json → Bool
  | none => true
  | some Json.null => true
  | some (Json.str s) => s == ""
  | _ => false

/-- Main.py lines 85-86: `priority` absent or null becomes `"medium"`. -/
def priorityStep (d : List (String × Json)) : List (String × Json) :=
  if isNoneOrNull (dictGet d "priority")
  then dictSet d "priority" (Json.str "medium") else d

/-- Main.py lines 87-88: `category` absent, null or empty becomes
`"general"`. -/
def categoryStep (d : List (String × Json)) : List (String × Json) :=
  if isNoneNullOrEmpty (dictGet d "category")
  then dictSet d "category" (Json.str "general") else d

/-- Main.py lines 89-90: `due_date` absent (or null) is written as null. -/
def dueDateStep (d : List (String × Json)) : List (String × Json) :=
  if isNoneOrNull (dictGet d "due_date")
  then dictSet d "due_date" Json.null else d

/-- The defaulting step of main.py lines 85-90, in source order. -/
def applyDefaults (d : List (String × Json)) : List (String × Json) :=
  dueDateStep (categoryStep (priorityStep d))

/-- The validated output record (pydantic model `TaskAnalysis`). -/
structure TaskAnalysis where
  description : String
  priority : String
  due_date : Option String
  category : String
deriving DecidableEq, Repr

/-- The admissible `priority` values (`Literal["low", "medium", "high"]`). -/
def enumPriority : List String := ["low", "medium", "high"]

/-- Pydantic check of the required `description : str` field. -/
def valDescription (d : List (String × Json)) : Option String :=
  match dictGet d "description" with
  | some (Json.str s) => some s
  | _ => none

/-- Pydantic check of `priority : Literal["low", "medium", "high"]`. -/
def valPriority (d : List (String × Json)) : Option String :=
  match dictGet d "priority" with
  | some (Json.str s) => if s ∈ enumPriority then some s else none
  | _ => none

/-- Pydantic check of `due_date : str | None = None`: an absent key takes
the default `None`. -/
def valDueDate (d : List (String × Json)) : Option (Option String) :=
  match dictGet d "due_date" with
  | none => some none
  | some Json.null => some none
  | some (Json.str s) => some (some s)
  | some _ => none

/-- Pydantic check of the required `category : str` field. -/
def valCategory (d : List (String × Json)) : Option String :=
  match dictGet d "category" with
  | some (Json.str s) => some s
  | _ => none

/-- The fields reported by the pydantic `ValidationError`, in declaration
order; the structured 422 payload is modelled by this list. -/
def validationErrors (d : List (String × Json)) : List String :=
  (if (valDescription d).isNone then ["description"] else []) ++
  (if (valPriority d).isNone then ["priority"] else []) ++
  (if (valDueDate d).isNone then ["due_date"] else []) ++
  (if (valCategory d).isNone then ["category"] else [])

/-- `TaskAnalysis(**data)`: succeeds exactly when every field check passes;
extra keys of `data` are ignored (pydantic default `extra="ignore"`). -/
def validateTaskAnalysis (d : List (String × Json)) :
    Except (List String) TaskAnalysis :=
  match valDescription d, valPriority d, valDueDate d, valCategory d with
  | some de, some p, some dd, some c => .ok ⟨de, p, dd, c⟩
  | _, _, _, _ => .error (validationErrors d)

/-- `validated.model_dump()` serialised by `JSONResponse`: an object with
exactly the four schema fields, in declaration order. -/
def model_dump (v : TaskAnalysis) : Json :=
  Json.obj [("description", Json.str v.description),
            ("priority", Json.str v.priority),
            ("due_date", match v.due_date with
                         | none => Json.null
                         | some s => Json.str s),
            ("category", Json.str v.category)]

/-- Read exactly two decimal digits. -/
def read2 : List Char → Option (Nat × List Char)
  | a :: b :: rest =>
      if a.isDigit && b.isDigit then
        some ((a.toNat - 48) * 10 + (b.toNat - 48), rest)
      else none
  | _ => none

/-- Read exactly four decimal digits. -/
def read4 : List Char → Option (Nat × List Char)
  | a :: b :: c :: d :: rest =>
      if a.isDigit && b.isDigit && c.isDigit && d.isDigit then
        some ((((a.toNat - 48) * 10 + (b.toNat - 48)) * 10 + (c.toNat - 48))
                * 10 + (d.toNat - 48), rest)
      else none
  | _ => none

/-- Gregorian leap-year rule used by `datetime`. -/
def isLeapYear (y : Nat) : Bool :=
  (y % 4 == 0 && y % 100 != 0) || (y % 400 == 0)

/-- Number of days in a month of the proleptic Gregorian calendar. -/
def daysInMonth (y m : Nat) : Nat :=
  if m == 2 then (if isLeapYear y then 29 else 28)
  else if m == 4 || m == 6 || m == 9 || m == 11 then 30
  else 31

/-- Parse and range-check the calendar-date prefix accepted by
`datetime.fromisoformat`: `YYYY-MM-DD` (extended) or `YYYYMMDD` (basic).
Returns the unconsumed remainder. -/
def parseIsoDate (cs : List Char) : Option (List Char) := do
  let (y, r1) ← read4 cs
  let (m, d, rest) ←
    match r1 with
    | '-' :: r2 => do
        let (m, r3) ← read2 r2
        match r3 with
        | '-' :: r4 => do
            let (d, r5) ← read2 r4
            pure (m, d, r5)
        | _ => none
    | _ => do
        let (m, r3) ← read2 r1
        let (d, r5) ← read2 r3
        pure (m, d, r5)
  if 1 ≤ y ∧ 1 ≤ m ∧ m ≤ 12 ∧ 1 ≤ d ∧ d ≤ daysInMonth y m then pure rest
  else none

/-- Optional fractional part after seconds: a dot or comma followed by at
least one digit.  A bare dot or comma is a parse error. -/
def parseFracOpt : List Char → Option (List Char)
  | [] => some []
  | c :: rest =>
      if c == '.' || c == ',' then
        let (ds, r) := rest.span Char.isDigit
        if ds.isEmpty then none else some r
      else some (c :: rest)

/-- Time-of-day fields accepted by `datetime.fromisoformat`:
`HH`, `HH:MM`, `HH:MM:SS[.frac]` (extended) or `HH`, `HHMM`, `HHMMSS[.frac]`
(basic), with range checks.  Returns the unconsumed remainder. -/
def parseTimeFields (cs : List Char) : Option (List Char) := do
  let (hh, r1) ← read2 cs
  if hh ≥ 24 then none else
  match r1 with
  | ':' :: r2 => do
      let (mm, r3) ← read2 r2
      if mm ≥ 60 then none else
      match r3 with
      | ':' :: r4 => do
          let (ss, r5) ← read2 r4
          if ss ≥ 60 then none else parseFracOpt r5
      | _ => pure r3
  | _ =>
      match read2 r1 with
      | some (mm, r3) =>
          if mm ≥ 60 then none else
          match read2 r3 with
          | some (ss, r5) => if ss ≥ 60 then none else parseFracOpt r5
          | none => pure r3
      | none => pure r1

/-- UTC-offset suffix accepted by `datetime.fromisoformat`: nothing, `Z`,
`z`, or a sign followed by time fields that consume the rest. -/
def parseTzSuffix : List Char → Bool
  | [] => true
  | ['Z'] => true
  | ['z'] => true
  | c :: rest =>
      if c == '+' || c == '-' then
        match parseTimeFields rest with
        | some [] => true
        | _ => false
      else false

/-- Acceptance of `datetime.fromisoformat(s)` (CPython 3.11+): a valid
calendar date, optionally followed by one separator character (any single
character) and a valid time with optional UTC offset. -/
def fromisoformatOk (s : String) : Bool :=
  match parseIsoDate s.toList with
  | none => false
  | some [] => true
  | some [_] => false
  | some (_sep :: rest) =>
      match parseTimeFields rest with
      | none => false
      | some r2 => parseTzSuffix r2

/-- The whitespace characters skipped by the `json` module. -/
def isJsonWs (c : Char) : Bool :=
  c == ' ' || c == '\t' || c == '\n' || c == '\r'

/-- Skip JSON whitespace. -/
def skipWs (cs : List Char) : List Char := cs.dropWhile isJsonWs

/-- Value of one hexadecimal digit. -/
def hexVal (c : Char) : Option Nat :=
  if c.isDigit then some (c.toNat - 48)
  else if 'a' ≤ c ∧ c ≤ 'f' then some (c.toNat - 87)
  else if 'A' ≤ c ∧ c ≤ 'F' then some (c.toNat - 55)
  else none

/-- Body of a JSON string literal after the opening quote: ordinary
characters, the standard escapes, and `\u` escapes (no surrogate-pair
combination); raw control characters are rejected as `json.loads` does. -/
def parseJStringAux : List Char → List Char → Option (String × List Char)
  | _, [] => none
  | acc, '"' :: rest => some (String.mk acc.reverse, rest)
  | _, ['\\'] => none
  | acc, '\\' :: e :: rest =>
      match e with
      | '"' => parseJStringAux ('"' :: acc) rest
      | '\\' => parseJStringAux ('\\' :: acc) rest
      | '/' => parseJStringAux ('/' :: acc) rest
      | 'b' => parseJStringAux ('\x08' :: acc) rest
      | 'f' => parseJStringAux ('\x0c' :: acc) rest
      | 'n' => parseJStringAux ('\n' :: acc) rest
      | 'r' => parseJStringAux ('\r' :: acc) rest
      | 't' => parseJStringAux ('\t' :: acc) rest
      | 'u' =>
          match rest with
          | a :: b :: c :: d :: r2 =>
              match hexVal a, hexVal b, hexVal c, hexVal d with
              | some ha, some hb, some hc, some hd =>
                  parseJStringAux
                    (Char.ofNat (((ha * 16 + hb) * 16 + hc) * 16 + hd) :: acc) r2
              | _, _, _, _ => none
          | _ => none
      | _ => none
  | acc, c :: rest =>
      if c.toNat < 32 then none else parseJStringAux (c :: acc) rest

/-- A JSON string literal after its opening quote. -/
def parseJString (cs : List Char) : Option (String × List Char) :=
  parseJStringAux [] cs

/-- A JSON number restricted to integers: optional minus sign, digits, no
leading zero; a following fraction or exponent is outside the model. -/
def parseJNumber (cs : List Char) : Option (Json × List Char) :=
  let core : List Char → Option (Nat × List Char) := fun l =>
    let (ds, r) := l.span Char.isDigit
    match ds with
    | [] => none
    | ['0'] => some (0, r)
    | '0' :: _ :: _ => none
    | _ =>
        match r with
        | c :: _ => if c == '.' || c == 'e' || c == 'E' then none
                    else some (ds.foldl (fun n c => n * 10 + (c.toNat - 48)) 0, r)
        | [] => some (ds.foldl (fun n c => n * 10 + (c.toNat - 48)) 0, r)
  match cs with
  | '-' :: rest =>
      match core rest with
      | some (n, r) => some (Json.num (-(n : Int)), r)
      | none => none
  | _ =>
      match core cs with
      | some (n, r) => some (Json.num (n : Int), r)
      | none => none

/-- Rebuild an object with Python-dict key semantics: first occurrence
keeps its position, a duplicate key overwrites the value. -/
def dedupObj (kvs : List (String × Json)) : List (String × Json) :=
  kvs.foldl (fun acc kv => dictSet acc kv.fst kv.snd) []

mutual

/-- One JSON value (fuel-indexed recursive-descent parser). -/
def jsonVal : Nat → List Char → Option (Json × List Char)
  | 0, _ => none
  | fuel + 1, cs =>
      match skipWs cs with
      | 'n' :: 'u' :: 'l' :: 'l' :: rest => some (Json.null, rest)
      | 't' :: 'r' :: 'u' :: 'e' :: rest => some (Json.bool true, rest)
      | 'f' :: 'a' :: 'l' :: 's' :: 'e' :: rest => some (Json.bool false, rest)
      | '"' :: rest =>
          match parseJString rest with
          | some (s, r) => some (Json.str s, r)
          | none => none
      | '[' :: rest =>
          match skipWs rest with
          | ']' :: r => some (Json.arr [], r)
          | cs2 =>
              match jsonElems fuel cs2 with
              | some (xs, r) => some (Json.arr xs, r)
              | none => none
      | '\x7b' :: rest =>
          match skipWs rest with
          | '\x7d' :: r => some (Json.obj [], r)
          | cs2 =>
              match jsonMembers fuel cs2 with
              | some (kvs, r) => some (Json.obj (dedupObj kvs), r)
              | none => none
      | cs2 => parseJNumber cs2

/-- Nonempty comma-separated array elements up to the closing bracket. -/
def jsonElems : Nat → List Char → Option (List Json × List Char)
  | 0, _ => none
  | fuel + 1, cs =>
      match jsonVal fuel cs with
      | none => none
      | some (v, r) =>
          match skipWs r with
          | ',' :: r2 =>
              match jsonElems fuel r2 with
              | some (xs, r3) => some (v :: xs, r3)
              | none => none
          | ']' :: r2 => some ([v], r2)
          | _ => none

/-- Nonempty comma-separated object members up to the closing brace. -/
def jsonMembers : Nat → List Char → Option (List (String × Json) × List Char)
  | 0, _ => none
  | fuel + 1, cs =>
      match skipWs cs with
      | '"' :: r1 =>
          match parseJString r1 with
          | none => none
          | some (k, r2) =>
              match skipWs r2 with
              | ':' :: r3 =>
                  match jsonVal fuel r3 with
                  | none => none
                  | some (v, r4) =>
                      match skipWs r4 with
                      | ',' :: r5 =>
                          match jsonMembers fuel r5 with
                          | some (kvs, r6) => some ((k, v) :: kvs, r6)
                          | none => none
                      | '\x7d' :: r5 => some ([(k, v)], r5)
                      | _ => none
              | _ => none
      | _ => none

end

/-- `json.loads` on the collaborator text (see the file header for the
scope of the model): one JSON value, surrounded only by whitespace. -/
def jsonLoads (s : String) : Option Json :=
  let cs := s.toList
  match jsonVal (2 * cs.length + 2) cs with
  | some (v, rest) => if skipWs rest = [] then some v else none
  | none => none

/-- The result of the one `client.responses.create` call: either the
exception it raised, or the `output_text` of the response it returned. -/
inductive CollabResult where
  | raise : String → CollabResult
  | output : String → CollabResult

/-- The `detail` payload of an `HTTPException`: a plain string, or the
structured pydantic error list (modelled by the violated field names). -/
inductive Detail where
  | text : String → Detail
  | fieldErrors : List String → Detail

/-- What one request produces: a 200 response with a JSON body, an
`HTTPException` with a status code and detail, or an uncaught Python
exception escaping the handler. -/
inductive Outcome where
  | success : Json → Outcome
  | httpError : Nat → Detail → Outcome
  | crash : String → Outcome

/-- Python type name of a JSON value, as it appears in the
`AttributeError` raised by `data.get` when `data` is not a dict. -/
def pyTypeName : Json → String
  | Json.null => "NoneType"
  | Json.bool _ => "bool"
  | Json.num _ => "int"
  | Json.str _ => "str"
  | Json.arr _ => "list"
  | Json.obj _ => "dict"

/-- Message of the `AttributeError` raised by `data.get` on a non-dict
(quote characters of the Python rendering omitted). -/
def attributeErrorMsg (t : String) : String :=
  "AttributeError: " ++ t ++ " object has no attribute get"

/-- Message text of the `json.JSONDecodeError` for a given input.  Only its
existence matters to the handler; the model uses the fixed text CPython
produces when no JSON value starts the input. -/
def jsonDecodeErrMsg (_s : String) : String :=
  "Expecting value: line 1 column 1 (char 0)"

/-- Message of the `ValueError` raised by `datetime.fromisoformat` (quote
characters of the Python rendering omitted). -/
def isoErrMsg (s : String) : String :=
  "Invalid isoformat string: " ++ s

/-- The fixed 500 detail of main.py lines 62-65. -/
def misconfigMsg : String :=
  "OPENAI_API_KEY is not set. Configure it to call the OpenAI API."

/-- Main.py lines 85-103: defaulting, schema validation, the
`fromisoformat` check on a non-null `due_date`, and the 200 response; a
non-dict parsed value crashes at `data.get` with an `AttributeError`. -/
def postParse : Json → Outcome
  | Json.obj kvs =>
      let d := applyDefaults kvs
      match validateTaskAnalysis d with
      | .error errs => Outcome.httpError 422 (Detail.fieldErrors errs)
      | .ok v =>
          match v.due_date with
          | some s =>
              if fromisoformatOk s then Outcome.success (model_dump v)
              else Outcome.httpError 422
                     (Detail.text ("Invalid due_date: " ++ isoErrMsg s))
          | none => Outcome.success (model_dump v)
  | data => Outcome.crash (attributeErrorMsg (pyTypeName data))

/-- The handler `analyze_task` of main.py lines 59-103, for a request that
passed the `TaskRequest` body validation.  `apiKey` is the value of the
`OPENAI_API_KEY` environment variable (`none` when unset), `collab` maps
the user text to the result of the collaborator call (the fixed system
prompt is the same on every call and is left implicit), and the second
component of the result counts outbound collaborator calls. -/
def analyze_task (apiKey : Option String) (collab : String → CollabResult)
    (text : String) : Outcome × Nat :=
  if apiKey = none ∨ apiKey = some "" then
    (Outcome.httpError 500 (Detail.text misconfigMsg), 0)
  else
    match collab text with
    | CollabResult.raise msg =>
        (Outcome.httpError 502 (Detail.text ("OpenAI API error: " ++ msg)), 1)
    | CollabResult.output content =>
        match jsonLoads content with
        | none =>
            (Outcome.httpError 502 (Detail.text
              ("Invalid JSON from model: " ++ jsonDecodeErrMsg content)), 1)
        | some data => (postParse data, 1)

/-- Hex digit character for a value below 16. -/
def hexDigitChar (n : Nat) : Char :=
  if n < 10 then Char.ofNat (48 + n) else Char.ofNat (87 + (n - 10))

/-- JSON string escaping as performed by `json.dumps` with
`ensure_ascii=False` (the `JSONResponse` serialiser). -/
def escapeChar (c : Char) : String :=
  if c == '"' then "\\\""
  else if c == '\\' then "\\\\"
  else if c == '\n' then "\\n"
  else if c == '\t' then "\\t"
  else if c == '\r' then "\\r"
  else if c == '\x08' then "\\b"
  else if c == '\x0c' then "\\f"
  else if c.toNat < 32 then
    "\\u00" ++ String.mk [hexDigitChar (c.toNat / 16), hexDigitChar (c.toNat % 16)]
  else String.singleton c

/-- A JSON string literal as rendered by `json.dumps`. -/
def renderString (s : String) : String :=
  "\"" ++ String.join (s.toList.map escapeChar) ++ "\""

mutual

/-- Byte rendering of a JSON value as produced by `JSONResponse`
(`json.dumps` with compact separators and `ensure_ascii=False`). -/
def renderJson : Json → String
  | Json.null => "null"
  | Json.bool b => if b then "true" else "false"
  | Json.num n => toString n
  | Json.str s => renderString s
  | Json.arr xs => "[" ++ renderJsonList xs ++ "]"
  | Json.obj kvs => "\x7b" ++ renderJsonObj kvs ++ "\x7d"

/-- Comma-separated rendering of array elements. -/
def renderJsonList : List Json → String
  | [] => ""
  | [x] => renderJson x
  | x :: xs => renderJson x ++ "," ++ renderJsonList xs

/-- Comma-separated rendering of object members. -/
def renderJsonObj : List (String × Json) → String
  | [] => ""
  | [(k, v)] => renderString k ++ ":" ++ renderJson v
  | (k, v) :: kvs => renderString k ++ ":" ++ renderJson v ++ "," ++ renderJsonObj kvs

end

example : fromisoformatOk "2026-02-11T15:00:00" = true := by decide
example : fromisoformatOk "next tuesday" = false := by decide
example : fromisoformatOk "2026-02-30" = false := by decide
example : fromisoformatOk "2024-02-29" = true := by decide
example : fromisoformatOk "2026-02-11 15:00:00.123+05:30" = true := by decide
example : fromisoformatOk "2026-13-01" = false := by decide

example : jsonLoads " \x7b \"a\" : [1, -2, true, null] \x7d " =
    some (Json.obj [("a", Json.arr
      [Json.num 1, Json.num (-2), Json.bool true, Json.null])]) := rfl
example : jsonLoads "42" = some (Json.num 42) := rfl
example : jsonLoads "Sorry, I cannot help" = none := rfl
example : jsonLoads "\x7b\"a\": 1, \"a\": 2\x7d" =
    some (Json.obj [("a", Json.num 2)]) := rfl

example :
    (analyze_task (some "sk-test")
      (fun _ => CollabResult.output
        "\x7b\"description\":\"Finish the report\",\"priority\":\"high\",\"due_date\":\"2026-02-11T15:00:00\",\"category\":\"work\"\x7d")
      "Finish the report by tomorrow 3pm, high priority").fst =
    Outcome.success (Json.obj
      [("description", Json.str "Finish the report"),
       ("priority", Json.str "high"),
       ("due_date", Json.str "2026-02-11T15:00:00"),
       ("category", Json.str "work")]) := rfl

example :
    (analyze_task (some "sk-test")
      (fun _ => CollabResult.output "\x7b\"description\": \"buy milk\"\x7d") "t").fst =
    Outcome.success (Json.obj
      [("description", Json.str "buy milk"),
       ("priority", Json.str "medium"),
       ("due_date", Json.null),
       ("category", Json.str "general")]) := rfl

example :
    (analyze_task (some "sk-test") (fun _ => CollabResult.output "42") "t").fst =
    Outcome.crash (attributeErrorMsg "int") := rfl

theorem dictGet_dictSet_same (d : List (String × Json)) (k : String) (v : Json) :
    dictGet (dictSet d k v) k = some v := by
  induction d with
  | nil => simp [dictSet, dictGet]
  | cons kv rest ih =>
      obtain ⟨k1, v1⟩ := kv
      by_cases h : k1 = k
      · simp [dictSet, dictGet, h]
      · simp [dictSet, dictGet, h, ih]

theorem dictGet_dictSet_ne (d : List (String × Json)) (k k' : String) (v : Json)
    (h : k ≠ k') : dictGet (dictSet d k v) k' = dictGet d k' := by
  induction d with
  | nil => simp [dictSet, dictGet, h]
  | cons kv rest ih =>
      obtain ⟨k1, v1⟩ := kv
      by_cases h1 : k1 = k
      · subst h1
        simp [dictSet, dictGet, h]
      · simp [dictSet, dictGet, h1, ih]

theorem dictGet_dictSet_isSome (d : List (String × Json)) (k k' : String) (v : Json)
    (h : (dictGet d k').isSome) : (dictGet (dictSet d k v) k').isSome := by
  by_cases hk : k = k'
  · subst hk
    simp [dictGet_dictSet_same]
  · rwa [dictGet_dictSet_ne d k k' v hk]

theorem dictGet_step_ne (d : List (String × Json)) (b : Bool) (k k' : String)
    (v : Json) (h : k ≠ k') :
    dictGet (if b then dictSet d k v else d) k' = dictGet d k' := by
  cases b
  · simp
  · simp [dictGet_dictSet_ne d k k' v h]

theorem priorityStep_get_ne (d : List (String × Json)) (k : String)
    (h : k ≠ "priority") : dictGet (priorityStep d) k = dictGet d k := by
  unfold priorityStep
  exact dictGet_step_ne d _ _ k _ (Ne.symm h)

theorem categoryStep_get_ne (d : List (String × Json)) (k : String)
    (h : k ≠ "category") : dictGet (categoryStep d) k = dictGet d k := by
  unfold categoryStep
  exact dictGet_step_ne d _ _ k _ (Ne.symm h)

theorem dueDateStep_get_ne (d : List (String × Json)) (k : String)
    (h : k ≠ "due_date") : dictGet (dueDateStep d) k = dictGet d k := by
  unfold dueDateStep
  exact dictGet_step_ne d _ _ k _ (Ne.symm h)

theorem applyDefaults_get_priority (d : List (String × Json)) :
    dictGet (applyDefaults d) "priority" =
      if isNoneOrNull (dictGet d "priority") then some (Json.str "medium")
      else dictGet d "priority" := by
  unfold applyDefaults
  rw [dueDateStep_get_ne _ _ (by decide), categoryStep_get_ne _ _ (by decide)]
  unfold priorityStep
  cases h : isNoneOrNull (dictGet d "priority")
  · simp
  · simp [dictGet_dictSet_same]

theorem applyDefaults_get_category (d : List (String × Json)) :
    dictGet (applyDefaults d) "category" =
      if isNoneNullOrEmpty (dictGet d "category") then some (Json.str "general")
      else dictGet d "category" := by
  unfold applyDefaults
  rw [dueDateStep_get_ne _ _ (by decide)]
  unfold categoryStep
  rw [priorityStep_get_ne _ _ (by decide)]
  cases h : isNoneNullOrEmpty (dictGet d "category")
  · simp [priorityStep_get_ne _ _ (by decide : ("category" : String) ≠ "priority")]
  · simp [dictGet_dictSet_same]

theorem applyDefaults_get_due_date (d : List (String × Json)) :
    dictGet (applyDefaults d) "due_date" =
      if isNoneOrNull (dictGet d "due_date") then some Json.null
      else dictGet d "due_date" := by
  unfold applyDefaults
  unfold dueDateStep
  rw [categoryStep_get_ne _ _ (by decide), priorityStep_get_ne _ _ (by decide)]
  cases h : isNoneOrNull (dictGet d "due_date")
  · simp [categoryStep_get_ne _ _ (by decide : ("due_date" : String) ≠ "category"),
          priorityStep_get_ne _ _ (by decide : ("due_date" : String) ≠ "priority")]
  · simp [dictGet_dictSet_same]

theorem applyDefaults_frame (d : List (String × Json)) (k : String)
    (h1 : k ≠ "priority") (h2 : k ≠ "category") (h3 : k ≠ "due_date") :
    dictGet (applyDefaults d) k = dictGet d k := by
  unfold applyDefaults
  rw [dueDateStep_get_ne _ _ h3, categoryStep_get_ne _ _ h2,
      priorityStep_get_ne _ _ h1]

theorem dictGet_step_isSome (d : List (String × Json)) (b : Bool) (k k' : String)
    (v : Json) (h : (dictGet d k').isSome) :
    (dictGet (if b then dictSet d k v else d) k').isSome := by
  cases b
  · simpa using h
  · simpa using dictGet_dictSet_isSome d k k' v h

theorem applyDefaults_isSome (d : List (String × Json)) (k : String)
    (h : (dictGet d k).isSome) : (dictGet (applyDefaults d) k).isSome := by
  unfold applyDefaults dueDateStep categoryStep priorityStep
  apply dictGet_step_isSome
  apply dictGet_step_isSome
  apply dictGet_step_isSome
  exact h

theorem validateTaskAnalysis_ok_fields (d : List (String × Json)) (v : TaskAnalysis)
    (h : validateTaskAnalysis d = Except.ok v) :
    valDescription d = some v.description ∧ valPriority d = some v.priority ∧
    valDueDate d = some v.due_date ∧ valCategory d = some v.category := by
  unfold validateTaskAnalysis at h
  split at h
  · rename_i de p dd c hde hp hdd hc
    injection h with h
    subst h
    exact ⟨hde, hp, hdd, hc⟩
  · simp at h

theorem valPriority_mem (d : List (String × Json)) (p : String)
    (h : valPriority d = some p) : p ∈ enumPriority := by
  unfold valPriority at h
  split at h
  · split at h
    · rename_i hmem
      injection h with h
      subst h
      assumption
    · simp at h
  · simp at h

theorem validateTaskAnalysis_error (d : List (String × Json))
    (h : validationErrors d ≠ []) :
    validateTaskAnalysis d = Except.error (validationErrors d) := by
  unfold validateTaskAnalysis
  split
  · rename_i de p dd c hde hp hdd hc
    exfalso
    apply h
    unfold validationErrors
    simp [hde, hp, hdd, hc]
  · rfl

theorem valPriority_none_mem_errors (d : List (String × Json))
    (h : valPriority d = none) : "priority" ∈ validationErrors d := by
  unfold validationErrors
  simp [h]

theorem valDescription_none_mem_errors (d : List (String × Json))
    (h : valDescription d = none) : "description" ∈ validationErrors d := by
  unfold validationErrors
  simp [h]

theorem valPriority_none_of_bad_enum (d : List (String × Json)) (p : String)
    (hp : dictGet d "priority" = some (Json.str p)) (hmem : p ∉ enumPriority) :
    valPriority d = none := by
  unfold valPriority
  rw [hp]
  simp [hmem]

theorem valPriority_none_of_not_str (d : List (String × Json))
    (h : ∀ s, dictGet d "priority" ≠ some (Json.str s)) :
    valPriority d = none := by
  unfold valPriority
  cases hg : dictGet d "priority" with
  | none => rfl
  | some j => cases j with
    | str s => exact absurd hg (h s)
    | null => rfl
    | bool _ => rfl
    | num _ => rfl
    | arr _ => rfl
    | obj _ => rfl

theorem valDescription_none_of_not_str (d : List (String × Json))
    (h : ∀ s, dictGet d "description" ≠ some (Json.str s)) :
    valDescription d = none := by
  unfold valDescription
  cases hg : dictGet d "description" with
  | none => rfl
  | some j => cases j with
    | str s => exact absurd hg (h s)
    | null => rfl
    | bool _ => rfl
    | num _ => rfl
    | arr _ => rfl
    | obj _ => rfl

theorem postParse_success_inv (data body : Json)
    (h : postParse data = Outcome.success body) :
    ∃ kvs v, data = Json.obj kvs ∧
      validateTaskAnalysis (applyDefaults kvs) = Except.ok v ∧
      body = model_dump v ∧
      (v.due_date = none ∨ ∃ s, v.due_date = some s ∧ fromisoformatOk s = true) := by
  cases data with
  | obj kvs =>
      refine ⟨kvs, ?_⟩
      simp only [postParse] at h
      split at h
      · simp at h
      · rename_i v hval
        split at h
        · rename_i s hdd
          split at h
          · rename_i hiso
            injection h with h
            exact ⟨v, rfl, hval, h.symm, Or.inr ⟨s, hdd, hiso⟩⟩
          · simp at h
        · rename_i hdd
          injection h with h
          exact ⟨v, rfl, hval, h.symm, Or.inl hdd⟩
  | null => simp [postParse] at h
  | bool b => simp [postParse] at h
  | num n => simp [postParse] at h
  | str s => simp [postParse] at h
  | arr xs => simp [postParse] at h

theorem analyze_task_key_ok (key : String) (hk : key ≠ "")
    (collab : String → CollabResult) (text : String) :
    analyze_task (some key) collab text =
      (match collab text with
       | CollabResult.raise msg =>
           (Outcome.httpError 502 (Detail.text ("OpenAI API error: " ++ msg)), 1)
       | CollabResult.output content =>
           match jsonLoads content with
           | none =>
               (Outcome.httpError 502 (Detail.text
                 ("Invalid JSON from model: " ++ jsonDecodeErrMsg content)), 1)
           | some data => (postParse data, 1)) := by
  unfold analyze_task
  rw [if_neg]
  simp [hk]

theorem analyze_task_raise (key : String) (hk : key ≠ "")
    (collab : String → CollabResult) (text msg : String)
    (hc : collab text = CollabResult.raise msg) :
    analyze_task (some key) collab text =
      (Outcome.httpError 502 (Detail.text ("OpenAI API error: " ++ msg)), 1) := by
  rw [analyze_task_key_ok key hk collab text, hc]

theorem analyze_task_badjson (key : String) (hk : key ≠ "")
    (collab : String → CollabResult) (text content : String)
    (hc : collab text = CollabResult.output content)
    (hj : jsonLoads content = none) :
    analyze_task (some key) collab text =
      (Outcome.httpError 502 (Detail.text
        ("Invalid JSON from model: " ++ jsonDecodeErrMsg content)), 1) := by
  rw [analyze_task_key_ok key hk collab text, hc]
  simp [hj]

theorem analyze_task_parsed (key : String) (hk : key ≠ "")
    (collab : String → CollabResult) (text content : String) (data : Json)
    (hc : collab text = CollabResult.output content)
    (hj : jsonLoads content = some data) :
    analyze_task (some key) collab text = (postParse data, 1) := by
  rw [analyze_task_key_ok key hk collab text, hc]
  simp [hj]


/-- C4: if the API credential environment variable is not set, every request
fails with status 500 and the fixed misconfiguration message, regardless of
the input text, and zero outbound calls to the collaborator are made. -/
theorem spec_c4_missing_credential (collab : String → CollabResult) (text : String) :
    analyze_task none collab text =
      (Outcome.httpError 500 (Detail.text misconfigMsg), 0) := by
  unfold analyze_task
  rw [if_pos]
  exact Or.inl rfl

/-- C3 (failing input): the spec promises that every collaborator text
output is terminated with a documented HTTP status, but when the output is
valid JSON that is not an object — here the number `42` — the unguarded
`data.get` call of main.py line 85 raises an uncaught `AttributeError`,
which escapes the handler unmapped. -/
theorem spec_c3_nonobject_crash :
    (analyze_task (some "sk-test") (fun _ => CollabResult.output "42")
      "walk the dog").fst =
    Outcome.crash (attributeErrorMsg "int") := rfl

/-- C5: with the credential configured, a raising collaborator call yields
a 502 whose detail carries the collaborator error text, and a successful
call whose text is not valid JSON yields a 502 whose detail reports the
invalid JSON; neither outcome coincides with any 422 validation failure. -/
theorem spec_c5_gateway_errors (key : String) (collab : String → CollabResult)
    (text : String) (hk : key ≠ "") :
    (∀ msg, collab text = CollabResult.raise msg →
       (analyze_task (some key) collab text).fst =
         Outcome.httpError 502 (Detail.text ("OpenAI API error: " ++ msg)) ∧
       ∀ d, (analyze_task (some key) collab text).fst ≠ Outcome.httpError 422 d) ∧
    (∀ content, collab text = CollabResult.output content →
       jsonLoads content = none →
       (analyze_task (some key) collab text).fst =
         Outcome.httpError 502 (Detail.text
           ("Invalid JSON from model: " ++ jsonDecodeErrMsg content)) ∧
       ∀ d, (analyze_task (some key) collab text).fst ≠ Outcome.httpError 422 d) := by
  constructor
  · intro msg hc
    rw [analyze_task_raise key hk collab text msg hc]
    exact ⟨rfl, by intro d h; simp at h⟩
  · intro content hc hj
    rw [analyze_task_badjson key hk collab text content hc hj]
    exact ⟨rfl, by intro d h; simp at h⟩

/-- C5 witness: both gateway failures evaluated on concrete inputs. -/
theorem spec_c5_witness :
    (analyze_task (some "sk-test") (fun _ => CollabResult.raise "quota exceeded")
       "t").fst =
      Outcome.httpError 502 (Detail.text ("OpenAI API error: " ++ "quota exceeded")) ∧
    (analyze_task (some "sk-test") (fun _ => CollabResult.output "Sorry, I cannot help")
       "t").fst =
      Outcome.httpError 502 (Detail.text
        ("Invalid JSON from model: " ++ jsonDecodeErrMsg "Sorry, I cannot help")) :=
  ⟨((spec_c5_gateway_errors "sk-test" (fun _ => CollabResult.raise "quota exceeded")
      "t" (by decide)).1 "quota exceeded" rfl).1,
   ((spec_c5_gateway_errors "sk-test" (fun _ => CollabResult.output "Sorry, I cannot help")
      "t" (by decide)).2 "Sorry, I cannot help" rfl rfl).1⟩

/-- C9: for a fixed environment and a fixed deterministic collaborator
reply, two invocations of the handler on the same text produce the same
outcome, and in particular byte-identical rendered 200 bodies. -/
theorem spec_c9_deterministic (apiKey : Option String)
    (collab : String → CollabResult) (text : String) (out1 out2 : Outcome × Nat)
    (h1 : out1 = analyze_task apiKey collab text)
    (h2 : out2 = analyze_task apiKey collab text) :
    out1 = out2 ∧
    ∀ b1 b2, out1.fst = Outcome.success b1 → out2.fst = Outcome.success b2 →
      renderJson b1 = renderJson b2 := by
  subst h1
  subst h2
  refine ⟨rfl, ?_⟩
  intro b1 b2 hb1 hb2
  rw [hb1] at hb2
  injection hb2 with h
  rw [h]

/-- C9 witness: two invocations on a concrete request agree. -/
theorem spec_c9_witness :
    analyze_task (some "sk-test")
        (fun _ => CollabResult.output "\x7b\"description\": \"buy milk\"\x7d") "t" =
      analyze_task (some "sk-test")
        (fun _ => CollabResult.output "\x7b\"description\": \"buy milk\"\x7d") "t" :=
  (spec_c9_deterministic (some "sk-test")
    (fun _ => CollabResult.output "\x7b\"description\": \"buy milk\"\x7d") "t"
    _ _ rfl rfl).1

/-- C2: the defaulting step sets `priority` to "medium" exactly when it is
absent or null, `category` to "general" exactly when it is absent, null or
empty, and `due_date` to null exactly when it is absent (a present value,
including null, keeps its value); consequently a collaborator object
containing only a description succeeds with priority "medium", category
"general" and due_date null. -/
theorem spec_c2_defaulting :
    (∀ d : List (String × Json),
       dictGet (applyDefaults d) "priority" =
         (if isNoneOrNull (dictGet d "priority") then some (Json.str "medium")
          else dictGet d "priority") ∧
       dictGet (applyDefaults d) "category" =
         (if isNoneNullOrEmpty (dictGet d "category") then some (Json.str "general")
          else dictGet d "category") ∧
       dictGet (applyDefaults d) "due_date" =
         (if (dictGet d "due_date").isNone then some Json.null
          else dictGet d "due_date")) ∧
    (∀ (key : String) (collab : String → CollabResult) (text content desc : String),
       key ≠ "" →
       collab text = CollabResult.output content →
       jsonLoads content = some (Json.obj [("description", Json.str desc)]) →
       (analyze_task (some key) collab text).fst =
         Outcome.success (Json.obj
           [("description", Json.str desc),
            ("priority", Json.str "medium"),
            ("due_date", Json.null),
            ("category", Json.str "general")])) := by
  constructor
  · intro d
    refine ⟨applyDefaults_get_priority d, applyDefaults_get_category d, ?_⟩
    rw [applyDefaults_get_due_date d]
    cases hg : dictGet d "due_date" with
    | none => simp [isNoneOrNull]
    | some j => cases j <;> simp [isNoneOrNull]
  · intro key collab text content desc hk hc hj
    rw [analyze_task_parsed key hk collab text content _ hc hj]
    simp [postParse, applyDefaults, dueDateStep, categoryStep, priorityStep,
          dictGet, dictSet, isNoneOrNull, isNoneNullOrEmpty,
          validateTaskAnalysis, valDescription, valPriority, valDueDate,
          valCategory, enumPriority, model_dump]

/-- C2 witness: a collaborator object with only a description, on concrete
input, is returned with the three defaults filled in. -/
theorem spec_c2_witness :
    (analyze_task (some "sk-test")
      (fun _ => CollabResult.output "\x7b\"description\": \"buy milk\"\x7d")
      "buy milk").fst =
    Outcome.success (Json.obj
      [("description", Json.str "buy milk"),
       ("priority", Json.str "medium"),
       ("due_date", Json.null),
       ("category", Json.str "general")]) :=
  spec_c2_defaulting.2 "sk-test"
    (fun _ => CollabResult.output "\x7b\"description\": \"buy milk\"\x7d")
    "buy milk" "\x7b\"description\": \"buy milk\"\x7d" "buy milk"
    (by decide) rfl rfl

/-- C8: the defaulting step modifies at most the `priority`, `category` and
`due_date` keys — every other key keeps its value — and no key present
before defaulting is ever removed by it. -/
theorem spec_c8_defaulting_frame :
    (∀ (d : List (String × Json)) (k : String),
       k ≠ "priority" → k ≠ "category" → k ≠ "due_date" →
       dictGet (applyDefaults d) k = dictGet d k) ∧
    (∀ (d : List (String × Json)) (k : String),
       (dictGet d k).isSome → (dictGet (applyDefaults d) k).isSome) :=
  ⟨fun d k h1 h2 h3 => applyDefaults_frame d k h1 h2 h3,
   fun d k h => applyDefaults_isSome d k h⟩

/-- C8 witness: on a concrete object, an unrelated key passes through the
defaulting step unchanged and a present key is not removed. -/
theorem spec_c8_witness :
    dictGet (applyDefaults [("description", Json.str "x"), ("extra", Json.num 1)])
        "extra" =
      dictGet [("description", Json.str "x"), ("extra", Json.num 1)] "extra" ∧
    (dictGet (applyDefaults [("description", Json.str "x"), ("extra", Json.num 1)])
        "description").isSome :=
  ⟨spec_c8_defaulting_frame.1 [("description", Json.str "x"), ("extra", Json.num 1)]
     "extra" (by decide) (by decide) (by decide),
   spec_c8_defaulting_frame.2 [("description", Json.str "x"), ("extra", Json.num 1)]
     "description" rfl⟩

/-- C6: when the parsed-and-defaulted collaborator object supplies a
priority outside the enumeration, or violates any field type constraint
(a missing description included), the handler fails with status 422 whose
detail is the list of violated fields. -/
theorem spec_c6_schema_validation (key : String) (collab : String → CollabResult)
    (text content : String) (kvs : List (String × Json)) (hk : key ≠ "")
    (hc : collab text = CollabResult.output content)
    (hj : jsonLoads content = some (Json.obj kvs)) :
    (∀ p, dictGet (applyDefaults kvs) "priority" = some (Json.str p) →
       p ∉ enumPriority → "priority" ∈ validationErrors (applyDefaults kvs)) ∧
    ((∀ s, dictGet (applyDefaults kvs) "description" ≠ some (Json.str s)) →
       "description" ∈ validationErrors (applyDefaults kvs)) ∧
    (validationErrors (applyDefaults kvs) ≠ [] →
       (analyze_task (some key) collab text).fst =
         Outcome.httpError 422
           (Detail.fieldErrors (validationErrors (applyDefaults kvs)))) := by
  refine ⟨?_, ?_, ?_⟩
  · intro p hp hmem
    exact valPriority_none_mem_errors _ (valPriority_none_of_bad_enum _ p hp hmem)
  · intro h
    exact valDescription_none_mem_errors _ (valDescription_none_of_not_str _ h)
  · intro herr
    rw [analyze_task_parsed key hk collab text content _ hc hj]
    simp [postParse, validateTaskAnalysis_error _ herr]

/-- C6 witness: a collaborator object with a bad priority and no
description is rejected with 422 listing both violated fields. -/
theorem spec_c6_witness :
    ("priority" ∈ validationErrors
        (applyDefaults [("priority", Json.str "urgent")])) ∧
    ("description" ∈ validationErrors
        (applyDefaults [("priority", Json.str "urgent")])) ∧
    (analyze_task (some "sk-test")
        (fun _ => CollabResult.output "\x7b\"priority\": \"urgent\"\x7d") "t").fst =
      Outcome.httpError 422 (Detail.fieldErrors
        (validationErrors (applyDefaults [("priority", Json.str "urgent")]))) :=
  ⟨(spec_c6_schema_validation "sk-test"
      (fun _ => CollabResult.output "\x7b\"priority\": \"urgent\"\x7d") "t"
      "\x7b\"priority\": \"urgent\"\x7d" [("priority", Json.str "urgent")]
      (by decide) rfl rfl).1 "urgent" rfl (by decide),
   (spec_c6_schema_validation "sk-test"
      (fun _ => CollabResult.output "\x7b\"priority\": \"urgent\"\x7d") "t"
      "\x7b\"priority\": \"urgent\"\x7d" [("priority", Json.str "urgent")]
      (by decide) rfl rfl).2.1 (by intro s h; simp [applyDefaults, dueDateStep,
        categoryStep, priorityStep, dictGet, dictSet, isNoneOrNull,
        isNoneNullOrEmpty] at h),
   (spec_c6_schema_validation "sk-test"
      (fun _ => CollabResult.output "\x7b\"priority\": \"urgent\"\x7d") "t"
      "\x7b\"priority\": \"urgent\"\x7d" [("priority", Json.str "urgent")]
      (by decide) rfl rfl).2.2 (by decide)⟩

/-- C7: when the defaulted object passes schema validation with a non-null
due_date string that `datetime.fromisoformat` rejects, the handler fails
with status 422 and a message naming the due_date field. -/
theorem spec_c7_semantic_due_date (key : String) (collab : String → CollabResult)
    (text content : String) (kvs : List (String × Json)) (v : TaskAnalysis)
    (s : String) (hk : key ≠ "")
    (hc : collab text = CollabResult.output content)
    (hj : jsonLoads content = some (Json.obj kvs))
    (hval : validateTaskAnalysis (applyDefaults kvs) = Except.ok v)
    (hdd : v.due_date = some s) (hiso : fromisoformatOk s = false) :
    (analyze_task (some key) collab text).fst =
      Outcome.httpError 422 (Detail.text ("Invalid due_date: " ++ isoErrMsg s)) := by
  rw [analyze_task_parsed key hk collab text content _ hc hj]
  simp [postParse, hval, hdd, hiso]

/-- C7 witness: a schema-valid object whose due_date is "next tuesday" is
rejected with a 422 naming due_date. -/
theorem spec_c7_witness :
    (analyze_task (some "sk-test")
      (fun _ => CollabResult.output
        "\x7b\"description\": \"x\", \"due_date\": \"next tuesday\"\x7d") "t").fst =
    Outcome.httpError 422
      (Detail.text ("Invalid due_date: " ++ isoErrMsg "next tuesday")) :=
  spec_c7_semantic_due_date "sk-test"
    (fun _ => CollabResult.output
      "\x7b\"description\": \"x\", \"due_date\": \"next tuesday\"\x7d")
    "t" "\x7b\"description\": \"x\", \"due_date\": \"next tuesday\"\x7d"
    [("description", Json.str "x"), ("due_date", Json.str "next tuesday")]
    ⟨"x", "medium", some "next tuesday", "general"⟩ "next tuesday"
    (by decide) rfl rfl rfl rfl (by decide)

theorem analyze_task_success_postParse (apiKey : Option String)
    (collab : String → CollabResult) (text : String) (body : Json)
    (h : (analyze_task apiKey collab text).fst = Outcome.success body) :
    ∃ data, postParse data = Outcome.success body := by
  unfold analyze_task at h
  split at h
  · simp at h
  · split at h
    · simp at h
    · split at h
      · simp at h
      · rename_i data hj
        exact ⟨data, h⟩

/-- C1: every 200 response body is an object with all four fields present
(description, priority, due_date, category), the priority is one of "low",
"medium", "high", and the due_date is either null or a string accepted by
the ISO-8601 parser. -/
theorem spec_c1_success_invariant (apiKey : Option String)
    (collab : String → CollabResult) (text : String) (body : Json)
    (h : (analyze_task apiKey collab text).fst = Outcome.success body) :
    ∃ de pr dd cat,
      body = Json.obj [("description", Json.str de), ("priority", Json.str pr),
                       ("due_date", dd), ("category", Json.str cat)] ∧
      pr ∈ enumPriority ∧
      (dd = Json.null ∨ ∃ s, dd = Json.str s ∧ fromisoformatOk s = true) := by
  obtain ⟨data, hp⟩ := analyze_task_success_postParse apiKey collab text body h
  obtain ⟨kvs, v, _, hval, hbody, hdue⟩ := postParse_success_inv data body hp
  obtain ⟨hde, hpri, hdd, hcat⟩ := validateTaskAnalysis_ok_fields _ _ hval
  refine ⟨v.description, v.priority,
    (match v.due_date with | none => Json.null | some s => Json.str s),
    v.category, ?_, valPriority_mem _ _ hpri, ?_⟩
  · rw [hbody]
    rfl
  · cases hvd : v.due_date with
    | none => exact Or.inl rfl
    | some s =>
        refine Or.inr ⟨s, rfl, ?_⟩
        rcases hdue with hnone | ⟨s2, hs2, hiso⟩
        · rw [hvd] at hnone
          cases hnone
        · rw [hvd] at hs2
          injection hs2 with hs2
          rw [← hs2] at hiso
          exact hiso

/-- C1 witness: the specification scenario reply yields a 200 whose body
satisfies the invariant. -/
theorem spec_c1_witness :
    ∃ de pr dd cat,
      Json.obj [("description", Json.str "Finish the report"),
                ("priority", Json.str "high"),
                ("due_date", Json.str "2026-02-11T15:00:00"),
                ("category", Json.str "work")] =
        Json.obj [("description", Json.str de), ("priority", Json.str pr),
                  ("due_date", dd), ("category", Json.str cat)] ∧
      pr ∈ enumPriority ∧
      (dd = Json.null ∨ ∃ s, dd = Json.str s ∧ fromisoformatOk s = true) :=
  spec_c1_success_invariant (some "sk-test")
    (fun _ => CollabResult.output
      "\x7b\"description\":\"Finish the report\",\"priority\":\"high\",\"due_date\":\"2026-02-11T15:00:00\",\"category\":\"work\"\x7d")
    "Finish the report by tomorrow 3pm, high priority"
    (Json.obj [("description", Json.str "Finish the report"),
               ("priority", Json.str "high"),
               ("due_date", Json.str "2026-02-11T15:00:00"),
               ("category", Json.str "work")]) rfl

/-- C10: a validated 200 body is exactly the four-field schema dump:
extra keys of the collaborator object pass through defaulting unchanged
but are dropped by schema validation and never appear in the response. -/
theorem spec_c10_exact_response_fields (key : String)
    (collab : String → CollabResult) (text content : String)
    (kvs : List (String × Json)) (body : Json) (hk : key ≠ "")
    (hc : collab text = CollabResult.output content)
    (hj : jsonLoads content = some (Json.obj kvs))
    (hs : (analyze_task (some key) collab text).fst = Outcome.success body) :
    (∃ v, validateTaskAnalysis (applyDefaults kvs) = Except.ok v ∧
       body = model_dump v) ∧
    (∀ k2, k2 ∉ ["description", "priority", "due_date", "category"] →
       dictGet (applyDefaults kvs) k2 = dictGet kvs k2 ∧
       ∀ fields, body = Json.obj fields → dictGet fields k2 = none) := by
  rw [analyze_task_parsed key hk collab text content _ hc hj] at hs
  replace hs : postParse (Json.obj kvs) = Outcome.success body := hs
  obtain ⟨kvs2, v, hobj, hval, hbody, _⟩ := postParse_success_inv _ _ hs
  injection hobj with hobj
  subst hobj
  refine ⟨⟨v, hval, hbody⟩, ?_⟩
  intro k2 hk2
  have h4 : k2 ≠ "description" := fun he => hk2 (by rw [he]; simp)
  have h1 : k2 ≠ "priority" := fun he => hk2 (by rw [he]; simp)
  have h3 : k2 ≠ "due_date" := fun he => hk2 (by rw [he]; simp)
  have h2 : k2 ≠ "category" := fun he => hk2 (by rw [he]; simp)
  refine ⟨applyDefaults_frame _ k2 h1 h2 h3, ?_⟩
  intro fields hf
  rw [hbody] at hf
  unfold model_dump at hf
  injection hf with hf
  rw [← hf]
  simp [dictGet, Ne.symm h1, Ne.symm h2, Ne.symm h3, Ne.symm h4]

/-- C10 witness: an extra key survives defaulting yet is absent from the
concrete 200 body. -/
theorem spec_c10_witness :
    dictGet (applyDefaults [("description", Json.str "x"), ("extra", Json.num 1)])
        "extra" =
      dictGet [("description", Json.str "x"), ("extra", Json.num 1)] "extra" ∧
    dictGet [("description", Json.str "x"), ("priority", Json.str "medium"),
             ("due_date", Json.null), ("category", Json.str "general")]
        "extra" = none :=
  ⟨((spec_c10_exact_response_fields "sk-test"
      (fun _ => CollabResult.output
        "\x7b\"description\": \"x\", \"extra\": 1\x7d") "t"
      "\x7b\"description\": \"x\", \"extra\": 1\x7d"
      [("description", Json.str "x"), ("extra", Json.num 1)]
      (Json.obj [("description", Json.str "x"), ("priority", Json.str "medium"),
                 ("due_date", Json.null), ("category", Json.str "general")])
      (by decide) rfl rfl rfl).2 "extra" (by decide)).1,
   ((spec_c10_exact_response_fields "sk-test"
      (fun _ => CollabResult.output
        "\x7b\"description\": \"x\", \"extra\": 1\x7d") "t"
      "\x7b\"description\": \"x\", \"extra\": 1\x7d"
      [("description", Json.str "x"), ("extra", Json.num 1)]
      (Json.obj [("description", Json.str "x"), ("priority", Json.str "medium"),
                 ("due_date", Json.null), ("category", Json.str "general")])
      (by decide) rfl rfl rfl).2 "extra" (by decide)).2
     [("description", Json.str "x"), ("priority", Json.str "medium"),
      ("due_date", Json.null), ("category", Json.str "general")] rfl⟩
